import Mathlib

/-!
Verification of the cloud-resources-as-code repository (three provider
scripts managing object-storage containers) against its natural-language
specification.

The development shallowly embeds, from the source:
  * `src/azure/02-storage/02-azure-storage-python.py`
    (`AzureStorageManager`: name generation, storage-account / container
    lifecycle),
  * `src/aws/02-storage/02-bucket-python.py`
    (`bucket_exists`, `create_bucket`, `delete_bucket`, `check_bucket`),
  * `src/gcp/02-storage/02-python-bucket.py`
    (`create_bucket`, `delete_bucket`, `check_bucket`).

Provider SDK calls (boto3, google-cloud-storage, azure-sdk) are modelled as
a record of state-transforming response functions: each script function is
embedded as a function of such a provider record, returning the observable
outcome, the sequence of SDK calls it performed, and the final provider
state.  Python's `hashlib.md5` is embedded in full (RFC 1321) so that the
Azure storage-account name generator is executable.
-/

/-! ## MD5 (RFC 1321), as used by `hashlib.md5(name.encode()).hexdigest()`

All arithmetic is on `Nat` reduced mod 2^32 where the reference algorithm
uses 32-bit words.  Recursion is structural (fuel where needed) so every
definition evaluates inside the kernel. -/

namespace MD5

/-- UTF-8 encoding of one code point, as python's `str.encode()` produces. -/
def utf8Bytes (c : Char) : List Nat :=
  let n := c.toNat
  if n < 0x80 then [n]
  else if n < 0x800 then
    [0xC0 ||| (n >>> 6), 0x80 ||| (n % 64)]
  else if n < 0x10000 then
    [0xE0 ||| (n >>> 12), 0x80 ||| ((n >>> 6) % 64), 0x80 ||| (n % 64)]
  else
    [0xF0 ||| (n >>> 18), 0x80 ||| ((n >>> 12) % 64),
     0x80 ||| ((n >>> 6) % 64), 0x80 ||| (n % 64)]

/-- Bytes of a string under UTF-8. -/
def strBytes (s : String) : List Nat :=
  s.data.flatMap utf8Bytes

/-- Left-rotation of a 32-bit word. -/
def rotl32 (x n : Nat) : Nat :=
  ((x <<< n) ||| (x >>> (32 - n))) % 4294967296

/-- Per-round sine-derived constants `K[i] = floor(2^32 * |sin(i+1)|)`. -/
def kTab : Array Nat := #[
  0xd76aa478, 0xe8c7b756, 0x242070db, 0xc1bdceee, 0xf57c0faf, 0x4787c62a, 0xa8304613, 0xfd469501,
  0x698098d8, 0x8b44f7af, 0xffff5bb1, 0x895cd7be, 0x6b901122, 0xfd987193, 0xa679438e, 0x49b40821,
  0xf61e2562, 0xc040b340, 0x265e5a51, 0xe9b6c7aa, 0xd62f105d, 0x02441453, 0xd8a1e681, 0xe7d3fbc8,
  0x21e1cde6, 0xc33707d6, 0xf4d50d87, 0x455a14ed, 0xa9e3e905, 0xfcefa3f8, 0x676f02d9, 0x8d2a4c8a,
  0xfffa3942, 0x8771f681, 0x6d9d6122, 0xfde5380c, 0xa4beea44, 0x4bdecfa9, 0xf6bb4b60, 0xbebfbc70,
  0x289b7ec6, 0xeaa127fa, 0xd4ef3085, 0x04881d05, 0xd9d4d039, 0xe6db99e5, 0x1fa27cf8, 0xc4ac5665,
  0xf4292244, 0x432aff97, 0xab9423a7, 0xfc93a039, 0x655b59c3, 0x8f0ccc92, 0xffeff47d, 0x85845dd1,
  0x6fa87e4f, 0xfe2ce6e0, 0xa3014314, 0x4e0811a1, 0xf7537e82, 0xbd3af235, 0x2ad7d2bb, 0xeb86d391]

/-- Per-round left-rotation amounts. -/
def sTab : Array Nat := #[
  7, 12, 17, 22, 7, 12, 17, 22, 7, 12, 17, 22, 7, 12, 17, 22,
  5, 9, 14, 20, 5, 9, 14, 20, 5, 9, 14, 20, 5, 9, 14, 20,
  4, 11, 16, 23, 4, 11, 16, 23, 4, 11, 16, 23, 4, 11, 16, 23,
  6, 10, 15, 21, 6, 10, 15, 21, 6, 10, 15, 21, 6, 10, 15, 21]

/-- Append the `1` bit, zero padding to 56 mod 64, then the 64-bit
little-endian message bit length. -/
def padMsg (msg : List Nat) : List Nat :=
  let bitLen := 8 * msg.length
  let zeros := (119 - (msg.length % 64)) % 64
  msg ++ 0x80 :: List.replicate zeros 0 ++
    ((List.range 8).map fun i => (bitLen >>> (8 * i)) % 256)

/-- Split into 64-byte chunks; fuel keeps the recursion structural. -/
def chunksAux : Nat → List Nat → List (List Nat)
  | 0, _ => []
  | _, [] => []
  | fuel + 1, l => l.take 64 :: chunksAux fuel (l.drop 64)

def chunks64 (l : List Nat) : List (List Nat) :=
  chunksAux l.length l

/-- Little-endian 32-bit word `g` of a 64-byte chunk. -/
def word (chunk : List Nat) (g : Nat) : Nat :=
  chunk.getD (4 * g) 0 + 256 * chunk.getD (4 * g + 1) 0 +
    65536 * chunk.getD (4 * g + 2) 0 + 16777216 * chunk.getD (4 * g + 3) 0

/-- One of the 64 mixing rounds over the running `(A, B, C, D)` words. -/
def step (chunk : List Nat) (st : Nat × Nat × Nat × Nat) (i : Nat) :
    Nat × Nat × Nat × Nat :=
  let a := st.1
  let b := st.2.1
  let c := st.2.2.1
  let d := st.2.2.2
  let fg : Nat × Nat :=
    if i < 16 then ((b &&& c) ||| ((4294967295 - b) &&& d), i)
    else if i < 32 then ((d &&& b) ||| ((4294967295 - d) &&& c), (5 * i + 1) % 16)
    else if i < 48 then (b ^^^ c ^^^ d, (3 * i + 5) % 16)
    else (c ^^^ (b ||| (4294967295 - d)), (7 * i) % 16)
  let f := (fg.1 + a + kTab.getD i 0 + word chunk fg.2) % 4294967296
  (d, (b + rotl32 f (sTab.getD i 0)) % 4294967296, b, c)

/-- Process one 64-byte chunk. -/
def processChunk (st : Nat × Nat × Nat × Nat) (chunk : List Nat) :
    Nat × Nat × Nat × Nat :=
  let r := (List.range 64).foldl (step chunk) st
  ((st.1 + r.1) % 4294967296, (st.2.1 + r.2.1) % 4294967296,
   (st.2.2.1 + r.2.2.1) % 4294967296, (st.2.2.2 + r.2.2.2) % 4294967296)

/-- Digest state after all chunks, starting from the standard IV. -/
def md5Core (msg : List Nat) : Nat × Nat × Nat × Nat :=
  (chunks64 (padMsg msg)).foldl processChunk
    (0x67452301, 0xefcdab89, 0x98badcfe, 0x10325476)

/-- Little-endian byte decomposition of a 32-bit word. -/
def wordLE (w : Nat) : List Nat :=
  [w % 256, (w >>> 8) % 256, (w >>> 16) % 256, (w >>> 24) % 256]

/-- The 16 digest bytes. -/
def md5Bytes (msg : List Nat) : List Nat :=
  let r := md5Core msg
  wordLE r.1 ++ wordLE r.2.1 ++ wordLE r.2.2.1 ++ wordLE r.2.2.2

def hexChar (n : Nat) : Char :=
  if n < 10 then Char.ofNat (48 + n) else Char.ofNat (87 + n % 16)

/-- Two lowercase hex characters per byte. -/
def hexPairs : List Nat → List Char
  | [] => []
  | b :: bs => hexChar (b / 16 % 16) :: hexChar (b % 16) :: hexPairs bs

end MD5

/-- `hashlib.md5(s.encode()).hexdigest()`. -/
def md5Hex (s : String) : String :=
  String.mk (MD5.hexPairs (MD5.md5Bytes (MD5.strBytes s)))

set_option maxRecDepth 40000

theorem md5Hex_empty : md5Hex "" = "d41d8cd98f00b204e9800998ecf8427e" := by
  decide

theorem md5Hex_abc : md5Hex "abc" = "900150983cd24fb0d6963f7d28e17f72" := by
  decide

theorem md5Hex_my_data : md5Hex "my-data" = "5fe46afb72359e0ff0151f793a27f367" := by
  decide

/-! ## Python string primitives used by the Azure name generator

Python slices strings by code point; we embed a string as its `Char` list.
`Char.toLower` only lowers ASCII letters, which covers every name the
scripts accept (provider names are ASCII). -/

/-- `s.lower()`. -/
def pyLower (s : String) : String :=
  String.mk (s.data.map Char.toLower)

/-- `s.replace('-', '')`: replacing by the empty string removes every dash. -/
def replaceDashEmpty (s : String) : String :=
  String.mk (s.data.filter (fun c => c ≠ '-'))

/-- `s[:n]`. -/
def strTake (s : String) (n : Nat) : String :=
  String.mk (s.data.take n)

/-- `s[-n:]` for `n > 0` (returns the whole string when it is shorter). -/
def strTakeRight (s : String) (n : Nat) : String :=
  String.mk (s.data.drop (s.data.length - n))

/-! ## Azure naming
`AzureStorageManager.generate_storage_account_name`
(src/azure/02-storage/02-azure-storage-python.py, lines 44-54).

The python reads the wall clock via `time.time()`; the embedding makes that
hidden input explicit as the `now` argument (seconds since the epoch, the
value of `int(time.time())` at the moment of the call).  Everything else is
computed exactly as the source does. -/

/-- ```
prefix = container_name.lower().replace('-', '')[:15]
timestamp = str(int(time.time()))[-4:]
hash_suffix = hashlib.md5(container_name.encode()).hexdigest()[:4]
return f"{prefix}{timestamp}{hash_suffix}"[:24]
``` -/
def generate_storage_account_name (container_name : String) (now : Nat) : String :=
  let pfx := strTake (replaceDashEmpty (pyLower container_name)) 15
  let timestamp := strTakeRight (Nat.repr now) 4
  let hash_suffix := strTake (md5Hex container_name) 4
  strTake (pfx ++ timestamp ++ hash_suffix) 24

/-! ## Shared reconciliation vocabulary

The scripts signal outcomes by their boolean return value plus the branch
taken (which message is printed / whether `sys.exit(1)` fires).  `Outcome`
names each distinct branch with the spec's vocabulary; `Outcome.isSuccess`
is the boolean the python function actually returns (with `sys.exit(1)`
counted as failure, as it yields a non-zero exit status). -/

inductive Outcome
  | created
  | alreadyExisted
  | deleted
  | alreadyAbsent
  | checkedOk
  | failedAccessDenied
  | failedNotFound
  | failedConflict
  | failedParentCreate
  | failedOther
deriving DecidableEq, Repr

def Outcome.isSuccess : Outcome → Bool
  | .created | .alreadyExisted | .deleted | .alreadyAbsent | .checkedOk => true
  | _ => false

/-- Result of one mutating invocation: the outcome, the ordered list of SDK
calls performed, and the final provider state. -/
structure Run (κ σ : Type) where
  outcome : Outcome
  trace : List κ
  state : σ
deriving DecidableEq, Repr

/-- Result of one describe/check invocation, with the metadata the script
retrieved (the details it prints), if any. -/
structure CheckRun (δ κ σ : Type) where
  outcome : Outcome
  detail : Option δ
  trace : List κ
  state : σ
deriving DecidableEq, Repr

/-! ## AWS backend — src/aws/02-storage/02-bucket-python.py

boto3 raises `ClientError` with an error code; `S3Error` enumerates the
codes the script inspects plus a catch-all.  The S3 service is modelled as
a record of state-transforming response functions, one per SDK call the
script makes. -/

namespace AWS

inductive S3Error
  | e404
  | e403
  | bucketAlreadyExists
  | bucketAlreadyOwnedByYou
  | noSuchBucket
  | otherErr
deriving DecidableEq, Repr

/-- The SDK calls the script can issue, in the order they appear in a
run's trace.  `createBucketCall` records the `CreateBucketConfiguration`
the script passed (`none` for us-east-1, lines 58-66). -/
inductive Call
  | headBucket
  | createBucketCall (locationConstraint : Option String)
  | emptyBucketObjects
  | deleteBucketCall
  | getBucketLocation
  | listBucketsCall
deriving DecidableEq, Repr

structure Provider (σ : Type) where
  headBucket : String → σ → Except S3Error Unit × σ
  createBucket : String → Option String → σ → Except S3Error Unit × σ
  emptyObjects : String → σ → Except S3Error Unit × σ
  deleteBucket : String → σ → Except S3Error Unit × σ
  getBucketLocation : String → σ → Except S3Error (Option String) × σ
  listBuckets : σ → Except S3Error (List (String × String)) × σ

/-- Result of `bucket_exists` (lines 33-47): `present`/`absent` for the
`True`/`False` returns; `fatal e` for the branches that print an error and
call `sys.exit(1)`. -/
inductive Probe
  | present
  | absent
  | fatal (e : S3Error)
deriving DecidableEq, Repr

/-- `bucket_exists(s3_client, bucket_name)`, lines 33-47. -/
def bucket_exists (p : Provider σ) (bucket : String) (s : σ) : Probe × σ :=
  match p.headBucket bucket s with
  | (.ok _, s1) => (.present, s1)
  | (.error .e404, s1) => (.absent, s1)
  | (.error e, s1) => (.fatal e, s1)

/-- `create_bucket(s3_client, bucket_name, region)`, lines 49-80.
Pre-probe via `bucket_exists`; create with region-dependent configuration;
`BucketAlreadyExists` / `BucketAlreadyOwnedByYou` absorbed into `True`. -/
def create_bucket (p : Provider σ) (bucket region : String) (s : σ) :
    Run Call σ :=
  match bucket_exists p bucket s with
  | (.present, s1) => ⟨.alreadyExisted, [.headBucket], s1⟩
  | (.fatal .e403, s1) => ⟨.failedAccessDenied, [.headBucket], s1⟩
  | (.fatal _, s1) => ⟨.failedOther, [.headBucket], s1⟩
  | (.absent, s1) =>
    let cfg : Option String := if region = "us-east-1" then none else some region
    match p.createBucket bucket cfg s1 with
    | (.ok _, s2) => ⟨.created, [.headBucket, .createBucketCall cfg], s2⟩
    | (.error .bucketAlreadyExists, s2) =>
      ⟨.created, [.headBucket, .createBucketCall cfg], s2⟩
    | (.error .bucketAlreadyOwnedByYou, s2) =>
      ⟨.created, [.headBucket, .createBucketCall cfg], s2⟩
    | (.error _, s2) => ⟨.failedOther, [.headBucket, .createBucketCall cfg], s2⟩

/-- `delete_bucket(s3_client, bucket_name, region)`, lines 82-107.
Pre-probe; best-effort `bucket.objects.all().delete()` whose `ClientError`
is only printed (lines 90-97); then `delete_bucket`, where any
`ClientError` — including `NoSuchBucket` — returns `False` (lines
100-107). -/
def delete_bucket (p : Provider σ) (bucket : String) (s : σ) : Run Call σ :=
  match bucket_exists p bucket s with
  | (.fatal .e403, s1) => ⟨.failedAccessDenied, [.headBucket], s1⟩
  | (.fatal _, s1) => ⟨.failedOther, [.headBucket], s1⟩
  | (.absent, s1) => ⟨.alreadyAbsent, [.headBucket], s1⟩
  | (.present, s1) =>
    let (_, s2) := p.emptyObjects bucket s1
    match p.deleteBucket bucket s2 with
    | (.ok _, s3) =>
      ⟨.deleted, [.headBucket, .emptyBucketObjects, .deleteBucketCall], s3⟩
    | (.error _, s3) =>
      ⟨.failedOther, [.headBucket, .emptyBucketObjects, .deleteBucketCall], s3⟩

/-- What `check_bucket` prints about an existing bucket: the region (with
the `LocationConstraint = None -> 'us-east-1'` defaulting of line 115) and
the creation date found by scanning `list_buckets` (lines 119-122). -/
structure CheckDetail where
  region : String
  created : Option String
deriving DecidableEq, Repr

/-- `check_bucket(s3_client, bucket_name)`, lines 109-133.  When the
details block raises `ClientError` the function still returns `True`
(lines 124-125), with whatever details were retrieved before the error. -/
def check_bucket (p : Provider σ) (bucket : String) (s : σ) :
    CheckRun CheckDetail Call σ :=
  match bucket_exists p bucket s with
  | (.fatal .e403, s1) => ⟨.failedAccessDenied, none, [.headBucket], s1⟩
  | (.fatal _, s1) => ⟨.failedOther, none, [.headBucket], s1⟩
  | (.absent, s1) => ⟨.failedNotFound, none, [.headBucket], s1⟩
  | (.present, s1) =>
    match p.getBucketLocation bucket s1 with
    | (.error _, s2) => ⟨.checkedOk, none, [.headBucket, .getBucketLocation], s2⟩
    | (.ok loc, s2) =>
      let region := loc.getD "us-east-1"
      match p.listBuckets s2 with
      | (.ok bs, s3) =>
        ⟨.checkedOk,
         some ⟨region, (bs.find? (fun b => b.1 = bucket)).map (fun b => b.2)⟩,
         [.headBucket, .getBucketLocation, .listBucketsCall], s3⟩
      | (.error _, s3) =>
        ⟨.checkedOk, some ⟨region, none⟩,
         [.headBucket, .getBucketLocation, .listBucketsCall], s3⟩

/-- A fault-free S3 service: state is the list of buckets this account
owns.  Creating an existing bucket reports `BucketAlreadyOwnedByYou`,
deleting a missing one reports `NoSuchBucket`, as S3 does. -/
def honest : Provider (List String) where
  headBucket b s := (if b ∈ s then .ok () else .error .e404, s)
  createBucket b _ s :=
    if b ∈ s then (.error .bucketAlreadyOwnedByYou, s) else (.ok (), b :: s)
  emptyObjects _ s := (.ok (), s)
  deleteBucket b s :=
    if b ∈ s then (.ok (), s.erase b) else (.error .noSuchBucket, s)
  getBucketLocation _ s := (.ok none, s)
  listBuckets s := (.ok (s.map fun b => (b, "2024-01-01")), s)

end AWS

/-! ## GCP backend — src/gcp/02-storage/02-python-bucket.py

`google.api_core.exceptions` errors the script distinguishes are `NotFound`
and `Conflict`; `forbidden` stands for a 403 `Forbidden`, which the script
never names and therefore handles via its generic `except Exception`
clauses. -/

namespace GCP

inductive GcsError
  | notFound
  | conflict
  | forbidden
  | otherErr
deriving DecidableEq, Repr

/-- Metadata `get_bucket` returns (the fields `check_bucket` prints). -/
structure BucketMeta where
  location : String
  storageClass : String
  timeCreated : String
deriving DecidableEq, Repr

inductive Call
  | getBucket
  | createBucketCall
  | listBlobsCall
  | deleteBlobsCall
  | deleteBucketCall
deriving DecidableEq, Repr

structure Provider (σ : Type) where
  getBucket : String → σ → Except GcsError BucketMeta × σ
  createBucket : String → String → String → σ → Except GcsError Unit × σ
  listBlobs : String → σ → Except GcsError (List String) × σ
  deleteBlobs : String → List String → σ → Except GcsError Unit × σ
  deleteBucket : String → σ → Except GcsError Unit × σ

/-- `create_bucket(bucket_name, location, project_id, storage_class)`,
lines 12-38.  The probe is `get_bucket` with an inner `except NotFound:
pass`; a `Conflict` anywhere in the body is caught by `except Conflict`
and returns `False` (lines 34-36); any other exception returns `False`
(lines 37-38). -/
def create_bucket (p : Provider σ) (bucket location _project_id : String)
    (s : σ) : Run Call σ :=
  match p.getBucket bucket s with
  | (.ok _, s1) => ⟨.alreadyExisted, [.getBucket], s1⟩
  | (.error .conflict, s1) => ⟨.failedConflict, [.getBucket], s1⟩
  | (.error .forbidden, s1) => ⟨.failedOther, [.getBucket], s1⟩
  | (.error .otherErr, s1) => ⟨.failedOther, [.getBucket], s1⟩
  | (.error .notFound, s1) =>
    match p.createBucket bucket location "STANDARD" s1 with
    | (.ok _, s2) => ⟨.created, [.getBucket, .createBucketCall], s2⟩
    | (.error .conflict, s2) =>
      ⟨.failedConflict, [.getBucket, .createBucketCall], s2⟩
    | (.error _, s2) => ⟨.failedOther, [.getBucket, .createBucketCall], s2⟩

/-- `delete_bucket(bucket_name, project_id)`, lines 40-73.  Probe via
`get_bucket` (inner `except NotFound` → skip, `True`); best-effort
`list_blobs` / `delete_blobs` whose exceptions are only printed as a
warning (lines 53-60); `bucket.delete()` with the outer `except NotFound:
return True` absorbing a vanished bucket (lines 66-68) and `except
Exception: return False` for the rest. -/
def delete_bucket (p : Provider σ) (bucket _project_id : String) (s : σ) :
    Run Call σ :=
  match p.getBucket bucket s with
  | (.error .notFound, s1) => ⟨.alreadyAbsent, [.getBucket], s1⟩
  | (.error _, s1) => ⟨.failedOther, [.getBucket], s1⟩
  | (.ok _, s1) =>
    let cleanup : List Call × σ :=
      match p.listBlobs bucket s1 with
      | (.ok blobs, s2) =>
        if blobs.isEmpty then ([.listBlobsCall], s2)
        else
          let (_, s3) := p.deleteBlobs bucket blobs s2
          ([.listBlobsCall, .deleteBlobsCall], s3)
      | (.error _, s2) => ([.listBlobsCall], s2)
    match p.deleteBucket bucket cleanup.2 with
    | (.ok _, s4) => ⟨.deleted, .getBucket :: cleanup.1 ++ [.deleteBucketCall], s4⟩
    | (.error .notFound, s4) =>
      ⟨.deleted, .getBucket :: cleanup.1 ++ [.deleteBucketCall], s4⟩
    | (.error _, s4) =>
      ⟨.failedOther, .getBucket :: cleanup.1 ++ [.deleteBucketCall], s4⟩

/-- `check_bucket(bucket_name, project_id)`, lines 75-90: one `get_bucket`
call that is at once the existence probe and the metadata fetch; its
result is printed verbatim. -/
def check_bucket (p : Provider σ) (bucket _project_id : String) (s : σ) :
    CheckRun BucketMeta Call σ :=
  match p.getBucket bucket s with
  | (.ok m, s1) => ⟨.checkedOk, some m, [.getBucket], s1⟩
  | (.error .notFound, s1) => ⟨.failedNotFound, none, [.getBucket], s1⟩
  | (.error _, s1) => ⟨.failedOther, none, [.getBucket], s1⟩

def defaultMeta : BucketMeta := ⟨"US", "STANDARD", "2024-01-01"⟩

/-- A fault-free GCS service: state is the list of existing bucket names
(each with `defaultMeta` metadata and no blobs). -/
def honest : Provider (List String) where
  getBucket b s := (if b ∈ s then .ok defaultMeta else .error .notFound, s)
  createBucket b _ _ s :=
    if b ∈ s then (.error .conflict, s) else (.ok (), b :: s)
  listBlobs _ s := (.ok [], s)
  deleteBlobs _ _ s := (.ok (), s)
  deleteBucket b s :=
    if b ∈ s then (.ok (), s.erase b) else (.error .notFound, s)

end GCP

/-! ## Azure backend — src/azure/02-storage/02-azure-storage-python.py

The manager holds a resource group and region; the embedding passes them
explicitly.  `_get_blob_service_client` (lines 79-95) is a `list_keys`
call whose failure is re-raised; it is recorded as a `listKeys` trace
element each time the script builds a client. -/

namespace Azure

inductive AzError
  | resourceNotFound
  | resourceExists
  | accessDenied
  | otherErr
deriving DecidableEq, Repr

inductive Call
  | acctGetProperties
  | acctBeginCreate
  | listKeys
  | ctrExists
  | ctrCreate
  | ctrDelete
  | ctrGetProperties
deriving DecidableEq, Repr

/-- Metadata `get_container_properties` returns (the fields
`check_container` prints, lines 186-190). -/
structure ContainerProps where
  name : String
  lastModified : String
  etag : String
  leaseStatus : Option String
deriving DecidableEq, Repr

structure Provider (σ : Type) where
  acctGetProperties : String → String → σ → Except AzError Unit × σ
  acctBeginCreate : String → String → String → σ → Except AzError Unit × σ
  listKeys : String → String → σ → Except AzError String × σ
  ctrExists : String → String → σ → Except AzError Bool × σ
  ctrCreate : String → String → σ → Except AzError Unit × σ
  ctrDelete : String → String → σ → Except AzError Unit × σ
  ctrGetProperties : String → String → σ → Except AzError ContainerProps × σ

/-- `storage_account_exists(storage_account)`, lines 56-66:
`ResourceNotFoundError` means `False`; ANY other exception — including an
access-denied one — is logged and also returned as `False`. -/
def storage_account_exists (p : Provider σ) (rg acct : String) (s : σ) :
    Bool × List Call × σ :=
  match p.acctGetProperties rg acct s with
  | (.ok _, s1) => (true, [.acctGetProperties], s1)
  | (.error .resourceNotFound, s1) => (false, [.acctGetProperties], s1)
  | (.error _, s1) => (false, [.acctGetProperties], s1)

/-- `container_exists(storage_account, container_name)`, lines 68-77: the
whole body — client acquisition (`list_keys`) included — sits under
`except Exception: return False`, so every failure, an access-denied one
included, is reported as "container does not exist". -/
def container_exists (p : Provider σ) (rg acct name : String) (s : σ) :
    Bool × List Call × σ :=
  match p.listKeys rg acct s with
  | (.error _, s1) => (false, [.listKeys], s1)
  | (.ok _, s1) =>
    match p.ctrExists acct name s1 with
    | (.ok b, s2) => (b, [.listKeys, .ctrExists], s2)
    | (.error _, s2) => (false, [.listKeys, .ctrExists], s2)

/-- `create_storage_account(storage_account)`, lines 97-128: skip when the
account exists; otherwise `begin_create` + poll, absorbing
`ResourceExistsError` ("created by another process") into `True`. -/
def create_storage_account (p : Provider σ) (rg acct region : String)
    (s : σ) : Bool × List Call × σ :=
  match storage_account_exists p rg acct s with
  | (true, tr, s1) => (true, tr, s1)
  | (false, tr, s1) =>
    match p.acctBeginCreate rg acct region s1 with
    | (.ok _, s2) => (true, tr ++ [.acctBeginCreate], s2)
    | (.error .resourceExists, s2) => (true, tr ++ [.acctBeginCreate], s2)
    | (.error _, s2) => (false, tr ++ [.acctBeginCreate], s2)

/-- `create_container(storage_account, container_name)`, lines 130-152:
FIRST ensure the storage account ("Create storage account first if
needed"), THEN probe the container, then create it, absorbing
`ResourceExistsError` into `True`. -/
def create_container (p : Provider σ) (rg region acct name : String)
    (s : σ) : Run Call σ :=
  match create_storage_account p rg acct region s with
  | (false, tr, s1) => ⟨.failedParentCreate, tr, s1⟩
  | (true, tr, s1) =>
    match container_exists p rg acct name s1 with
    | (true, tr2, s2) => ⟨.alreadyExisted, tr ++ tr2, s2⟩
    | (false, tr2, s2) =>
      match p.listKeys rg acct s2 with
      | (.error _, s3) => ⟨.failedOther, tr ++ tr2 ++ [.listKeys], s3⟩
      | (.ok _, s3) =>
        match p.ctrCreate acct name s3 with
        | (.ok _, s4) =>
          ⟨.created, tr ++ tr2 ++ [.listKeys, .ctrCreate], s4⟩
        | (.error .resourceExists, s4) =>
          ⟨.created, tr ++ tr2 ++ [.listKeys, .ctrCreate], s4⟩
        | (.error _, s4) =>
          ⟨.failedOther, tr ++ tr2 ++ [.listKeys, .ctrCreate], s4⟩

/-- `delete_container(storage_account, container_name)`, lines 154-174:
skip when the probe says absent; otherwise delete, absorbing
`ResourceNotFoundError` ("was already deleted") into `True`. -/
def delete_container (p : Provider σ) (rg acct name : String) (s : σ) :
    Run Call σ :=
  match container_exists p rg acct name s with
  | (false, tr, s1) => ⟨.alreadyAbsent, tr, s1⟩
  | (true, tr, s1) =>
    match p.listKeys rg acct s1 with
    | (.error _, s2) => ⟨.failedOther, tr ++ [.listKeys], s2⟩
    | (.ok _, s2) =>
      match p.ctrDelete acct name s2 with
      | (.ok _, s3) => ⟨.deleted, tr ++ [.listKeys, .ctrDelete], s3⟩
      | (.error .resourceNotFound, s3) =>
        ⟨.deleted, tr ++ [.listKeys, .ctrDelete], s3⟩
      | (.error _, s3) => ⟨.failedOther, tr ++ [.listKeys, .ctrDelete], s3⟩

/-- `check_container(storage_account, container_name)`, lines 176-196:
probe, then fetch and print properties; a failure while fetching
properties returns `False`. -/
def check_container (p : Provider σ) (rg acct name : String) (s : σ) :
    CheckRun ContainerProps Call σ :=
  match container_exists p rg acct name s with
  | (false, tr, s1) => ⟨.failedNotFound, none, tr, s1⟩
  | (true, tr, s1) =>
    match p.listKeys rg acct s1 with
    | (.error _, s2) => ⟨.failedOther, none, tr ++ [.listKeys], s2⟩
    | (.ok _, s2) =>
      match p.ctrGetProperties acct name s2 with
      | (.ok props, s3) =>
        ⟨.checkedOk, some props, tr ++ [.listKeys, .ctrGetProperties], s3⟩
      | (.error _, s3) =>
        ⟨.failedOther, none, tr ++ [.listKeys, .ctrGetProperties], s3⟩

/-- Backend state for the fault-free Azure service: the storage accounts
of the resource group and the `(account, container)` pairs that exist. -/
structure AzState where
  accounts : List String
  containers : List (String × String)
deriving DecidableEq, Repr

/-- A fault-free Azure service. -/
def honest : Provider AzState where
  acctGetProperties _ a s :=
    (if a ∈ s.accounts then .ok () else .error .resourceNotFound, s)
  acctBeginCreate _ a _ s :=
    if a ∈ s.accounts then (.error .resourceExists, s)
    else (.ok (), { s with accounts := a :: s.accounts })
  listKeys _ a s :=
    (if a ∈ s.accounts then .ok "key1" else .error .resourceNotFound, s)
  ctrExists a c s := (.ok (decide ((a, c) ∈ s.containers)), s)
  ctrCreate a c s :=
    if (a, c) ∈ s.containers then (.error .resourceExists, s)
    else (.ok (), { s with containers := (a, c) :: s.containers })
  ctrDelete a c s :=
    if (a, c) ∈ s.containers then
      (.ok (), { s with containers := s.containers.erase (a, c) })
    else (.error .resourceNotFound, s)
  ctrGetProperties a c s :=
    (if (a, c) ∈ s.containers then .ok ⟨c, "2024-01-01", "0x1", none⟩
     else .error .resourceNotFound, s)

end Azure

/-! ## Fault-injection environments

Stateless (`σ := Unit`) providers whose responses realise the race and
permission scenarios of the spec's edge-case policy. -/

namespace AWS

/-- Bucket absent at probe time, created concurrently: `create_bucket`
raises `BucketAlreadyExists`. -/
def raceCreate : Provider Unit where
  headBucket _ s := (.error .e404, s)
  createBucket _ _ s := (.error .bucketAlreadyExists, s)
  emptyObjects _ s := (.ok (), s)
  deleteBucket _ s := (.ok (), s)
  getBucketLocation _ s := (.ok none, s)
  listBuckets s := (.ok [], s)

/-- As `raceCreate`, but the caller already owns the bucket:
`BucketAlreadyOwnedByYou`. -/
def raceCreateOwned : Provider Unit where
  headBucket _ s := (.error .e404, s)
  createBucket _ _ s := (.error .bucketAlreadyOwnedByYou, s)
  emptyObjects _ s := (.ok (), s)
  deleteBucket _ s := (.ok (), s)
  getBucketLocation _ s := (.ok none, s)
  listBuckets s := (.ok [], s)

/-- The existence probe is answered with 403 Forbidden. -/
def denied : Provider Unit where
  headBucket _ s := (.error .e403, s)
  createBucket _ _ s := (.ok (), s)
  emptyObjects _ s := (.ok (), s)
  deleteBucket _ s := (.ok (), s)
  getBucketLocation _ s := (.ok none, s)
  listBuckets s := (.ok [], s)

/-- Bucket present at probe time, deleted concurrently: the final
`delete_bucket` call raises `NoSuchBucket`. -/
def raceDeleted : Provider Unit where
  headBucket _ s := (.ok (), s)
  createBucket _ _ s := (.ok (), s)
  emptyObjects _ s := (.ok (), s)
  deleteBucket _ s := (.error .noSuchBucket, s)
  getBucketLocation _ s := (.ok none, s)
  listBuckets s := (.ok [], s)

/-- Bucket present; emptying its objects fails; the delete itself
succeeds. -/
def cleanupFails : Provider Unit where
  headBucket _ s := (.ok (), s)
  createBucket _ _ s := (.ok (), s)
  emptyObjects _ s := (.error .otherErr, s)
  deleteBucket _ s := (.ok (), s)
  getBucketLocation _ s := (.ok none, s)
  listBuckets s := (.ok [], s)

end AWS

namespace GCP

/-- Bucket absent at probe time, created concurrently: `create_bucket`
raises `Conflict`. -/
def raceCreate : Provider Unit where
  getBucket _ s := (.error .notFound, s)
  createBucket _ _ _ s := (.error .conflict, s)
  listBlobs _ s := (.ok [], s)
  deleteBlobs _ _ s := (.ok (), s)
  deleteBucket _ s := (.ok (), s)

/-- The existence probe is answered with 403 Forbidden. -/
def denied : Provider Unit where
  getBucket _ s := (.error .forbidden, s)
  createBucket _ _ _ s := (.ok (), s)
  listBlobs _ s := (.ok [], s)
  deleteBlobs _ _ s := (.ok (), s)
  deleteBucket _ s := (.ok (), s)

/-- Bucket present at probe time, deleted concurrently: the final
`bucket.delete()` raises `NotFound`. -/
def raceDeleted : Provider Unit where
  getBucket _ s := (.ok defaultMeta, s)
  createBucket _ _ _ s := (.ok (), s)
  listBlobs _ s := (.ok [], s)
  deleteBlobs _ _ s := (.ok (), s)
  deleteBucket _ s := (.error .notFound, s)

/-- Bucket present; listing its blobs fails; the delete itself
succeeds. -/
def cleanupFails : Provider Unit where
  getBucket _ s := (.ok defaultMeta, s)
  createBucket _ _ _ s := (.ok (), s)
  listBlobs _ s := (.error .otherErr, s)
  deleteBlobs _ _ s := (.ok (), s)
  deleteBucket _ s := (.ok (), s)

end GCP

namespace Azure

/-- Storage account present, but the caller is denied access to the
container: `container_client.exists()` raises an access-denied error.
Creating and deleting would succeed if attempted. -/
def deniedProbe : Provider Unit where
  acctGetProperties _ _ s := (.ok (), s)
  acctBeginCreate _ _ _ s := (.ok (), s)
  listKeys _ _ s := (.ok "key1", s)
  ctrExists _ _ s := (.error .accessDenied, s)
  ctrCreate _ _ s := (.ok (), s)
  ctrDelete _ _ s := (.ok (), s)
  ctrGetProperties _ _ s := (.error .accessDenied, s)

/-- Account present, container absent at probe time, created concurrently:
`create_container` raises `ResourceExistsError`. -/
def raceCreate : Provider Unit where
  acctGetProperties _ _ s := (.ok (), s)
  acctBeginCreate _ _ _ s := (.ok (), s)
  listKeys _ _ s := (.ok "key1", s)
  ctrExists _ _ s := (.ok false, s)
  ctrCreate _ _ s := (.error .resourceExists, s)
  ctrDelete _ _ s := (.ok (), s)
  ctrGetProperties _ _ s := (.error .resourceNotFound, s)

/-- Container present at probe time, deleted concurrently:
`delete_container` raises `ResourceNotFoundError`. -/
def raceDeleted : Provider Unit where
  acctGetProperties _ _ s := (.ok (), s)
  acctBeginCreate _ _ _ s := (.ok (), s)
  listKeys _ _ s := (.ok "key1", s)
  ctrExists _ _ s := (.ok true, s)
  ctrCreate _ _ s := (.ok (), s)
  ctrDelete _ _ s := (.error .resourceNotFound, s)
  ctrGetProperties _ _ s := (.error .resourceNotFound, s)

end Azure

/-! ## Supporting lemmas -/

theorem MD5.length_hexPairs (l : List Nat) :
    (MD5.hexPairs l).length = 2 * l.length := by
  induction l with
  | nil => rfl
  | cons b bs ih => simp [MD5.hexPairs, ih]; omega

theorem MD5.length_md5Bytes (m : List Nat) : (MD5.md5Bytes m).length = 16 :=
  rfl

/-- A hexdigest always has 32 characters. -/
theorem length_md5Hex (s : String) : (md5Hex s).length = 32 := by
  show (MD5.hexPairs (MD5.md5Bytes (MD5.strBytes s))).length = 32
  rw [MD5.length_hexPairs, MD5.length_md5Bytes]

theorem length_strTake (s : String) (n : Nat) :
    (strTake s n).length = min n s.length := by
  show (s.data.take n).length = min n s.data.length
  exact List.length_take n s.data

/-! ## Claim theorems -/

/-- **C1, counterexample.**  The claim asserts the canonical id embeds "no
random or time-based component, so the result does not depend on the time
of invocation".  `generate_storage_account_name` embeds
`str(int(time.time()))[-4:]`: the same logical name run one second apart
(epoch seconds 1700000000 and 1700000001) produces the distinct ids
`"mydata00005fe4"` and `"mydata00015fe4"`. -/
theorem C1_counterexample :
    generate_storage_account_name "my-data" 1700000000 ≠
      generate_storage_account_name "my-data" 1700000001 := by
  decide

/-- **C1, amended.**  The generator is deterministic in its explicit
inputs, and the hash suffix it embeds is a stable function of the logical
name alone — but the id also embeds the last four decimal digits of the
invocation time, so it is reproducible exactly when those four digits
agree, not unconditionally. -/
theorem C1_amended_determinism :
    ∀ (name : String) (now1 now2 : Nat),
      strTakeRight (Nat.repr now1) 4 = strTakeRight (Nat.repr now2) 4 →
      generate_storage_account_name name now1 =
        generate_storage_account_name name now2 := by
  intro name now1 now2 h
  simp only [generate_storage_account_name, h]

/-- **C1, witness.**  Epoch seconds 1700000000 and 2000000000 share the
last four digits "0000", so the amended determinism applies to them. -/
theorem C1_witness :
    strTakeRight (Nat.repr 1700000000) 4 = strTakeRight (Nat.repr 2000000000) 4 ∧
      generate_storage_account_name "my-data" 1700000000 =
        generate_storage_account_name "my-data" 2000000000 :=
  ⟨by decide, C1_amended_determinism "my-data" 1700000000 2000000000 (by decide)⟩

/-- **C10.**  For every container name and invocation time the generated
storage-account name is the 24-character truncation of: the lowercased,
dash-stripped, 15-character-truncated prefix, then the last four digits of
the epoch time, then the first four characters of the md5 hexdigest of the
container name; in particular its length never exceeds 24 and the hash
suffix is exactly 4 characters. -/
theorem C10_name_length_bound :
    ∀ (name : String) (now : Nat),
      (generate_storage_account_name name now).length ≤ 24 ∧
      generate_storage_account_name name now =
        strTake (strTake (replaceDashEmpty (pyLower name)) 15 ++
          strTakeRight (Nat.repr now) 4 ++ strTake (md5Hex name) 4) 24 ∧
      (strTake (md5Hex name) 4).length = 4 := by
  intro name now
  refine ⟨?_, rfl, ?_⟩
  · simp only [generate_storage_account_name]
    rw [length_strTake]
    exact Nat.min_le_left _ _
  · rw [length_strTake, length_md5Hex]
    decide

/-- **C2, counterexample.**  The claim asserts every provider backend
treats a benign "already exists" on create as success.  The GCP script
does not: when the bucket is absent at probe time and the subsequent
`create_bucket` raises `Conflict` (a race against a concurrent creator),
`except Conflict:` prints an error and returns `False`
(src/gcp/02-storage/02-python-bucket.py, lines 34-36). -/
theorem C2_counterexample :
    (GCP.create_bucket GCP.raceCreate "my-data" "US" "proj" ()).outcome =
        .failedConflict ∧
      (GCP.create_bucket GCP.raceCreate "my-data" "US" "proj" ()).outcome.isSuccess =
        false := by
  decide

/-- **C2, amended.**  On the AWS backend a `BucketAlreadyExists` or
`BucketAlreadyOwnedByYou` from the create call is absorbed into success,
and on the Azure backend a `ResourceExistsError` from the container create
is absorbed into success; but on the GCP backend a `Conflict` raised by
the create call makes the operation fail (only a bucket that already
exists at probe time is reported as success there). -/
theorem C2_benign_create_race :
    (∀ {σ : Type} (p : AWS.Provider σ) (b r : String) (s s1 s2 : σ),
      p.headBucket b s = (.error .e404, s1) →
      p.createBucket b (if r = "us-east-1" then none else some r) s1 =
        (.error .bucketAlreadyExists, s2) →
      (AWS.create_bucket p b r s).outcome = .created) ∧
    (∀ {σ : Type} (p : AWS.Provider σ) (b r : String) (s s1 s2 : σ),
      p.headBucket b s = (.error .e404, s1) →
      p.createBucket b (if r = "us-east-1" then none else some r) s1 =
        (.error .bucketAlreadyOwnedByYou, s2) →
      (AWS.create_bucket p b r s).outcome = .created) ∧
    (∀ {σ : Type} (p : Azure.Provider σ) (rg region acct c : String)
        (s s1 s2 s3 s4 s5 : σ) (k1 k2 : String),
      p.acctGetProperties rg acct s = (.ok (), s1) →
      p.listKeys rg acct s1 = (.ok k1, s2) →
      p.ctrExists acct c s2 = (.ok false, s3) →
      p.listKeys rg acct s3 = (.ok k2, s4) →
      p.ctrCreate acct c s4 = (.error .resourceExists, s5) →
      (Azure.create_container p rg region acct c s).outcome = .created) ∧
    (∀ {σ : Type} (p : GCP.Provider σ) (b loc pid : String) (s s1 s2 : σ),
      p.getBucket b s = (.error .notFound, s1) →
      p.createBucket b loc "STANDARD" s1 = (.error .conflict, s2) →
      (GCP.create_bucket p b loc pid s).outcome = .failedConflict) := by
  refine ⟨?_, ?_, ?_, ?_⟩
  · intro σ p b r s s1 s2 h1 h2
    simp only [AWS.create_bucket, AWS.bucket_exists, h1, h2]
  · intro σ p b r s s1 s2 h1 h2
    simp only [AWS.create_bucket, AWS.bucket_exists, h1, h2]
  · intro σ p rg region acct c s s1 s2 s3 s4 s5 k1 k2 h1 h2 h3 h4 h5
    simp only [Azure.create_container, Azure.create_storage_account,
      Azure.storage_account_exists, Azure.container_exists, h1, h2, h3, h4, h5]
  · intro σ p b loc pid s s1 s2 h1 h2
    simp only [GCP.create_bucket, h1, h2]

/-- **C2, witness.**  The amended statement applied to the concrete race
environments: AWS absorbs the already-exists race, Azure absorbs the
resource-exists race, GCP fails on the conflict race. -/
theorem C2_witness :
    (AWS.create_bucket AWS.raceCreate "my-data" "us-east-1" ()).outcome = .created ∧
    (AWS.create_bucket AWS.raceCreateOwned "my-data" "eu-west-1" ()).outcome = .created ∧
    (Azure.create_container Azure.raceCreate "rg" "eastus" "acct" "ctr" ()).outcome = .created ∧
    (GCP.create_bucket GCP.raceCreate "my-data" "US" "proj" ()).outcome = .failedConflict :=
  ⟨C2_benign_create_race.1 AWS.raceCreate "my-data" "us-east-1" () () () rfl rfl,
   C2_benign_create_race.2.1 AWS.raceCreateOwned "my-data" "eu-west-1" () () () rfl rfl,
   C2_benign_create_race.2.2.1 Azure.raceCreate "rg" "eastus" "acct" "ctr"
     () () () () () () "key1" "key1" rfl rfl rfl rfl rfl,
   C2_benign_create_race.2.2.2 GCP.raceCreate "my-data" "US" "proj" () () () rfl rfl⟩

/-- **C3, counterexample.**  The claim asserts that on every backend an
access-denied existence probe is fatal and `create`/`delete` are never
subsequently called.  The Azure script violates this:
`container_exists` catches every exception and returns `False`
(src/azure/02-storage/02-azure-storage-python.py, lines 69-77), so with
the account reachable but the container probe denied, `create_container`
interprets the probe as Absent and proceeds to call the container create
(outcome `created`, with `ctrCreate` in its trace), and
`delete_container` reports success (`alreadyAbsent`) without deleting
anything. -/
theorem C3_counterexample :
    (Azure.create_container Azure.deniedProbe "rg" "eastus" "acct" "ctr" ()).outcome =
        .created ∧
      Azure.Call.ctrCreate ∈
        (Azure.create_container Azure.deniedProbe "rg" "eastus" "acct" "ctr" ()).trace ∧
      (Azure.delete_container Azure.deniedProbe "rg" "acct" "ctr" ()).outcome =
        .alreadyAbsent ∧
      Azure.Call.ctrDelete ∉
        (Azure.delete_container Azure.deniedProbe "rg" "acct" "ctr" ()).trace := by
  decide

/-- **C3, amended.**  On the AWS backend a 403 on the probe aborts both
`create_bucket` and `delete_bucket` with an access-denied failure and no
further call; on the GCP backend a Forbidden on the probe aborts both with
a (generic) failure and no further call; but on the Azure backend an
access-denied answer to the container probe is reported as "container does
not exist", so the state machine proceeds as if the resource were
absent. -/
theorem C3_probe_denied_short_circuit :
    (∀ {σ : Type} (p : AWS.Provider σ) (b r : String) (s s1 : σ),
      p.headBucket b s = (.error .e403, s1) →
      AWS.create_bucket p b r s = ⟨.failedAccessDenied, [.headBucket], s1⟩) ∧
    (∀ {σ : Type} (p : AWS.Provider σ) (b : String) (s s1 : σ),
      p.headBucket b s = (.error .e403, s1) →
      AWS.delete_bucket p b s = ⟨.failedAccessDenied, [.headBucket], s1⟩) ∧
    (∀ {σ : Type} (p : GCP.Provider σ) (b loc pid : String) (s s1 : σ),
      p.getBucket b s = (.error .forbidden, s1) →
      GCP.create_bucket p b loc pid s = ⟨.failedOther, [.getBucket], s1⟩) ∧
    (∀ {σ : Type} (p : GCP.Provider σ) (b pid : String) (s s1 : σ),
      p.getBucket b s = (.error .forbidden, s1) →
      GCP.delete_bucket p b pid s = ⟨.failedOther, [.getBucket], s1⟩) ∧
    (∀ {σ : Type} (p : Azure.Provider σ) (rg acct c : String)
        (s s1 s2 : σ) (k : String),
      p.listKeys rg acct s = (.ok k, s1) →
      p.ctrExists acct c s1 = (.error .accessDenied, s2) →
      Azure.container_exists p rg acct c s = (false, [.listKeys, .ctrExists], s2)) := by
  refine ⟨?_, ?_, ?_, ?_, ?_⟩
  · intro σ p b r s s1 h
    simp only [AWS.create_bucket, AWS.bucket_exists, h]
  · intro σ p b s s1 h
    simp only [AWS.delete_bucket, AWS.bucket_exists, h]
  · intro σ p b loc pid s s1 h
    simp only [GCP.create_bucket, h]
  · intro σ p b pid s s1 h
    simp only [GCP.delete_bucket, h]
  · intro σ p rg acct c s s1 s2 k h1 h2
    simp only [Azure.container_exists, h1, h2]

/-- **C3, witness.**  The amended statement applied to the concrete
denied environments. -/
theorem C3_witness :
    AWS.create_bucket AWS.denied "my-data" "us-east-1" () =
        ⟨.failedAccessDenied, [.headBucket], ()⟩ ∧
      AWS.delete_bucket AWS.denied "my-data" () =
        ⟨.failedAccessDenied, [.headBucket], ()⟩ ∧
      GCP.create_bucket GCP.denied "my-data" "US" "proj" () =
        ⟨.failedOther, [.getBucket], ()⟩ ∧
      GCP.delete_bucket GCP.denied "my-data" "proj" () =
        ⟨.failedOther, [.getBucket], ()⟩ ∧
      Azure.container_exists Azure.deniedProbe "rg" "acct" "ctr" () =
        (false, [.listKeys, .ctrExists], ()) :=
  ⟨C3_probe_denied_short_circuit.1 AWS.denied "my-data" "us-east-1" () () rfl,
   C3_probe_denied_short_circuit.2.1 AWS.denied "my-data" () () rfl,
   C3_probe_denied_short_circuit.2.2.1 GCP.denied "my-data" "US" "proj" () () rfl,
   C3_probe_denied_short_circuit.2.2.2.1 GCP.denied "my-data" "proj" () () rfl,
   C3_probe_denied_short_circuit.2.2.2.2 Azure.deniedProbe "rg" "acct" "ctr"
     () () () "key1" rfl rfl⟩

/-- **C4, counterexample.**  The claim asserts every backend treats "not
found" on the delete call as success.  The AWS script does not: its final
`delete_bucket` call catches every `ClientError` — `NoSuchBucket`
included — with "Failed to delete bucket" and returns `False`
(src/aws/02-storage/02-bucket-python.py, lines 100-107).  So when the
bucket vanishes between the probe and the delete, the operation fails. -/
theorem C4_counterexample :
    (AWS.delete_bucket AWS.raceDeleted "my-data" ()).outcome = .failedOther ∧
      (AWS.delete_bucket AWS.raceDeleted "my-data" ()).outcome.isSuccess = false := by
  decide

/-- **C4, amended.**  On the Azure backend a `ResourceNotFoundError` from
the container delete is absorbed into success, and on the GCP backend a
`NotFound` from `bucket.delete()` is absorbed into success; but on the AWS
backend any error from the final delete call — `NoSuchBucket` included —
makes the operation fail (only a bucket already absent at probe time is
reported as success there). -/
theorem C4_benign_delete_race :
    (∀ {σ : Type} (p : Azure.Provider σ) (rg acct c : String)
        (s s1 s2 s3 s4 : σ) (k1 k2 : String),
      p.listKeys rg acct s = (.ok k1, s1) →
      p.ctrExists acct c s1 = (.ok true, s2) →
      p.listKeys rg acct s2 = (.ok k2, s3) →
      p.ctrDelete acct c s3 = (.error .resourceNotFound, s4) →
      (Azure.delete_container p rg acct c s).outcome = .deleted) ∧
    (∀ {σ : Type} (p : GCP.Provider σ) (b pid : String) (s s1 s2 s3 : σ)
        (m : GCP.BucketMeta),
      p.getBucket b s = (.ok m, s1) →
      p.listBlobs b s1 = (.ok [], s2) →
      p.deleteBucket b s2 = (.error .notFound, s3) →
      (GCP.delete_bucket p b pid s).outcome = .deleted) ∧
    (∀ {σ : Type} (p : AWS.Provider σ) (b : String) (s s1 s2 s3 : σ),
      p.headBucket b s = (.ok (), s1) →
      p.emptyObjects b s1 = (.ok (), s2) →
      p.deleteBucket b s2 = (.error .noSuchBucket, s3) →
      (AWS.delete_bucket p b s).outcome = .failedOther) := by
  refine ⟨?_, ?_, ?_⟩
  · intro σ p rg acct c s s1 s2 s3 s4 k1 k2 h1 h2 h3 h4
    simp only [Azure.delete_container, Azure.container_exists, h1, h2, h3, h4]
  · intro σ p b pid s s1 s2 s3 m h1 h2 h3
    simp only [GCP.delete_bucket, h1, h2, h3, List.isEmpty_nil, if_true]
  · intro σ p b s s1 s2 s3 h1 h2 h3
    simp only [AWS.delete_bucket, AWS.bucket_exists, h1, h2, h3]

/-- **C4, witness.**  The amended statement applied to the concrete
deleted-race environments. -/
theorem C4_witness :
    (Azure.delete_container Azure.raceDeleted "rg" "acct" "ctr" ()).outcome = .deleted ∧
      (GCP.delete_bucket GCP.raceDeleted "my-data" "proj" ()).outcome = .deleted ∧
      (AWS.delete_bucket AWS.raceDeleted "my-data" ()).outcome = .failedOther :=
  ⟨C4_benign_delete_race.1 Azure.raceDeleted "rg" "acct" "ctr" () () () () ()
     "key1" "key1" rfl rfl rfl rfl,
   C4_benign_delete_race.2.1 GCP.raceDeleted "my-data" "proj" () () () ()
     GCP.defaultMeta rfl rfl rfl,
   C4_benign_delete_race.2.2 AWS.raceDeleted "my-data" () () () () rfl rfl rfl⟩

/-- Recognise the underlying create call in an AWS trace. -/
def AWS.isCreateCall : AWS.Call → Bool
  | .createBucketCall _ => true
  | _ => false

/-- **C5.**  Ensure-present is idempotent on all three backends: when the
probe observes the resource Present the operation returns `alreadyExisted`
with a trace containing no create call; and two runs in sequence against a
fresh fault-free backend yield `created` then `alreadyExisted`, with
exactly one underlying create call between them (so the second call never
errors). -/
theorem C5_ensure_present_idempotent :
    (∀ {σ : Type} (p : AWS.Provider σ) (b r : String) (s s1 : σ),
      p.headBucket b s = (.ok (), s1) →
      AWS.create_bucket p b r s = ⟨.alreadyExisted, [.headBucket], s1⟩) ∧
    (∀ {σ : Type} (p : GCP.Provider σ) (b loc pid : String) (s s1 : σ)
        (m : GCP.BucketMeta),
      p.getBucket b s = (.ok m, s1) →
      GCP.create_bucket p b loc pid s = ⟨.alreadyExisted, [.getBucket], s1⟩) ∧
    (∀ {σ : Type} (p : Azure.Provider σ) (rg region acct c : String)
        (s s1 s2 s3 : σ) (k : String),
      p.acctGetProperties rg acct s = (.ok (), s1) →
      p.listKeys rg acct s1 = (.ok k, s2) →
      p.ctrExists acct c s2 = (.ok true, s3) →
      Azure.create_container p rg region acct c s =
        ⟨.alreadyExisted, [.acctGetProperties, .listKeys, .ctrExists], s3⟩) ∧
    (∀ (b r : String),
      (AWS.create_bucket AWS.honest b r []).outcome = .created ∧
      (AWS.create_bucket AWS.honest b r
        (AWS.create_bucket AWS.honest b r []).state).outcome = .alreadyExisted ∧
      ((AWS.create_bucket AWS.honest b r []).trace ++
        (AWS.create_bucket AWS.honest b r
          (AWS.create_bucket AWS.honest b r []).state).trace).countP
          (fun c => AWS.isCreateCall c) = 1) ∧
    (∀ (b loc pid : String),
      (GCP.create_bucket GCP.honest b loc pid []).outcome = .created ∧
      (GCP.create_bucket GCP.honest b loc pid
        (GCP.create_bucket GCP.honest b loc pid []).state).outcome = .alreadyExisted ∧
      ((GCP.create_bucket GCP.honest b loc pid []).trace ++
        (GCP.create_bucket GCP.honest b loc pid
          (GCP.create_bucket GCP.honest b loc pid []).state).trace).countP
          (fun c => c = GCP.Call.createBucketCall) = 1) ∧
    (∀ (rg region a c : String),
      (Azure.create_container Azure.honest rg region a c ⟨[], []⟩).outcome = .created ∧
      (Azure.create_container Azure.honest rg region a c
        (Azure.create_container Azure.honest rg region a c ⟨[], []⟩).state).outcome =
        .alreadyExisted ∧
      ((Azure.create_container Azure.honest rg region a c ⟨[], []⟩).trace ++
        (Azure.create_container Azure.honest rg region a c
          (Azure.create_container Azure.honest rg region a c ⟨[], []⟩).state).trace).countP
          (fun k => k = Azure.Call.ctrCreate) = 1) := by
  refine ⟨?_, ?_, ?_, ?_, ?_, ?_⟩
  · intro σ p b r s s1 h
    simp only [AWS.create_bucket, AWS.bucket_exists, h]
  · intro σ p b loc pid s s1 m h
    simp only [GCP.create_bucket, h]
  · intro σ p rg region acct c s s1 s2 s3 k h1 h2 h3
    simp only [Azure.create_container, Azure.create_storage_account,
      Azure.storage_account_exists, Azure.container_exists, h1, h2, h3]
    rfl
  · intro b r
    simp [AWS.create_bucket, AWS.bucket_exists, AWS.honest, AWS.isCreateCall,
      List.countP_cons, List.countP_nil]
  · intro b loc pid
    simp [GCP.create_bucket, GCP.honest, List.countP_cons, List.countP_nil]
  · intro rg region a c
    simp [Azure.create_container, Azure.create_storage_account,
      Azure.storage_account_exists, Azure.container_exists, Azure.honest,
      List.countP_cons, List.countP_nil]

/-- **C5, witness.**  The present-state conjuncts applied to fault-free
backends that already hold the resource. -/
theorem C5_witness :
    AWS.create_bucket AWS.honest "my-data" "us-east-1" ["my-data"] =
        ⟨.alreadyExisted, [.headBucket], ["my-data"]⟩ ∧
      GCP.create_bucket GCP.honest "my-data" "US" "proj" ["my-data"] =
        ⟨.alreadyExisted, [.getBucket], ["my-data"]⟩ ∧
      Azure.create_container Azure.honest "rg" "eastus" "acct" "ctr"
          ⟨["acct"], [("acct", "ctr")]⟩ =
        ⟨.alreadyExisted, [.acctGetProperties, .listKeys, .ctrExists],
          ⟨["acct"], [("acct", "ctr")]⟩⟩ :=
  ⟨C5_ensure_present_idempotent.1 AWS.honest "my-data" "us-east-1"
     ["my-data"] ["my-data"] rfl,
   C5_ensure_present_idempotent.2.1 GCP.honest "my-data" "US" "proj"
     ["my-data"] ["my-data"] GCP.defaultMeta rfl,
   C5_ensure_present_idempotent.2.2.1 Azure.honest "rg" "eastus" "acct" "ctr"
     ⟨["acct"], [("acct", "ctr")]⟩ ⟨["acct"], [("acct", "ctr")]⟩
     ⟨["acct"], [("acct", "ctr")]⟩ ⟨["acct"], [("acct", "ctr")]⟩ "key1"
     rfl rfl rfl⟩

/-- **C6.**  Ensure-absent is idempotent on all three backends: when the
probe observes the resource Absent the operation returns `alreadyAbsent`
with a trace containing no delete call; and two runs in sequence against a
fault-free backend holding the resource yield `deleted` then
`alreadyAbsent`, with at most one underlying delete call between them. -/
theorem C6_ensure_absent_idempotent :
    (∀ {σ : Type} (p : AWS.Provider σ) (b : String) (s s1 : σ),
      p.headBucket b s = (.error .e404, s1) →
      AWS.delete_bucket p b s = ⟨.alreadyAbsent, [.headBucket], s1⟩) ∧
    (∀ {σ : Type} (p : GCP.Provider σ) (b pid : String) (s s1 : σ),
      p.getBucket b s = (.error .notFound, s1) →
      GCP.delete_bucket p b pid s = ⟨.alreadyAbsent, [.getBucket], s1⟩) ∧
    (∀ {σ : Type} (p : Azure.Provider σ) (rg acct c : String)
        (s s1 s2 : σ) (k : String),
      p.listKeys rg acct s = (.ok k, s1) →
      p.ctrExists acct c s1 = (.ok false, s2) →
      Azure.delete_container p rg acct c s =
        ⟨.alreadyAbsent, [.listKeys, .ctrExists], s2⟩) ∧
    (∀ (b : String),
      (AWS.delete_bucket AWS.honest b [b]).outcome = .deleted ∧
      (AWS.delete_bucket AWS.honest b
        (AWS.delete_bucket AWS.honest b [b]).state).outcome = .alreadyAbsent ∧
      ((AWS.delete_bucket AWS.honest b [b]).trace ++
        (AWS.delete_bucket AWS.honest b
          (AWS.delete_bucket AWS.honest b [b]).state).trace).countP
          (fun c => c = AWS.Call.deleteBucketCall) ≤ 1) ∧
    (∀ (b pid : String),
      (GCP.delete_bucket GCP.honest b pid [b]).outcome = .deleted ∧
      (GCP.delete_bucket GCP.honest b pid
        (GCP.delete_bucket GCP.honest b pid [b]).state).outcome = .alreadyAbsent ∧
      ((GCP.delete_bucket GCP.honest b pid [b]).trace ++
        (GCP.delete_bucket GCP.honest b pid
          (GCP.delete_bucket GCP.honest b pid [b]).state).trace).countP
          (fun c => c = GCP.Call.deleteBucketCall) ≤ 1) ∧
    (∀ (rg a c : String),
      (Azure.delete_container Azure.honest rg a c ⟨[a], [(a, c)]⟩).outcome = .deleted ∧
      (Azure.delete_container Azure.honest rg a c
        (Azure.delete_container Azure.honest rg a c ⟨[a], [(a, c)]⟩).state).outcome =
        .alreadyAbsent ∧
      ((Azure.delete_container Azure.honest rg a c ⟨[a], [(a, c)]⟩).trace ++
        (Azure.delete_container Azure.honest rg a c
          (Azure.delete_container Azure.honest rg a c ⟨[a], [(a, c)]⟩).state).trace).countP
          (fun k => k = Azure.Call.ctrDelete) ≤ 1) := by
  refine ⟨?_, ?_, ?_, ?_, ?_, ?_⟩
  · intro σ p b s s1 h
    simp only [AWS.delete_bucket, AWS.bucket_exists, h]
  · intro σ p b pid s s1 h
    simp only [GCP.delete_bucket, h]
  · intro σ p rg acct c s s1 s2 k h1 h2
    simp only [Azure.delete_container, Azure.container_exists, h1, h2]
  · intro b
    simp [AWS.delete_bucket, AWS.bucket_exists, AWS.honest,
      List.countP_cons, List.countP_nil]
  · intro b pid
    simp [GCP.delete_bucket, GCP.honest, List.countP_cons, List.countP_nil]
  · intro rg a c
    simp [Azure.delete_container, Azure.container_exists, Azure.honest,
      List.countP_cons, List.countP_nil]

/-- **C6, witness.**  The absent-state conjuncts applied to fault-free
backends not holding the resource. -/
theorem C6_witness :
    AWS.delete_bucket AWS.honest "my-data" [] =
        ⟨.alreadyAbsent, [.headBucket], []⟩ ∧
      GCP.delete_bucket GCP.honest "my-data" "proj" [] =
        ⟨.alreadyAbsent, [.getBucket], []⟩ ∧
      Azure.delete_container Azure.honest "rg" "acct" "ctr" ⟨["acct"], []⟩ =
        ⟨.alreadyAbsent, [.listKeys, .ctrExists], ⟨["acct"], []⟩⟩ :=
  ⟨C6_ensure_absent_idempotent.1 AWS.honest "my-data" [] [] rfl,
   C6_ensure_absent_idempotent.2.1 GCP.honest "my-data" "proj" [] [] rfl,
   C6_ensure_absent_idempotent.2.2.1 Azure.honest "rg" "acct" "ctr"
     ⟨["acct"], []⟩ ⟨["acct"], []⟩ ⟨["acct"], []⟩ "key1" rfl rfl⟩

/-- `create_storage_account` always begins with the storage-account
properties probe, whatever the provider answers. -/
theorem Azure.create_storage_account_trace_head {σ : Type}
    (p : Azure.Provider σ) (rg acct region : String) (s : σ) :
    ∃ tl, (Azure.create_storage_account p rg acct region s).2.1 =
      Azure.Call.acctGetProperties :: tl := by
  rcases hv : p.acctGetProperties rg acct s with ⟨r, s1⟩
  rcases r with e | _
  · rcases hb : p.acctBeginCreate rg acct region s1 with ⟨rb, s2⟩
    refine ⟨[.acctBeginCreate], ?_⟩
    rcases rb with e2 | _
    · rcases e <;> rcases e2 <;>
        simp [Azure.create_storage_account, Azure.storage_account_exists, hv, hb]
    · rcases e <;>
        simp [Azure.create_storage_account, Azure.storage_account_exists, hv, hb]
  · exact ⟨[], by
      simp [Azure.create_storage_account, Azure.storage_account_exists, hv]⟩

/-- **C7, counterexample.**  The claim asserts the container existence
probe comes first and `ensureParent` runs only after it.  On a fresh Azure
backend `create_container` does the opposite: its very first calls ensure
the storage account (`acctGetProperties`, `acctBeginCreate`, indices 0-1
of the trace), and the container existence probe (`ctrExists`) happens
only afterwards (index 3). -/
theorem C7_counterexample :
    (Azure.create_container Azure.honest "rg" "eastus" "acct" "ctr" ⟨[], []⟩).trace =
        [.acctGetProperties, .acctBeginCreate, .listKeys, .ctrExists,
         .listKeys, .ctrCreate] ∧
      (Azure.create_container Azure.honest "rg" "eastus" "acct" "ctr"
          ⟨[], []⟩).trace.head? ≠ some Azure.Call.ctrExists := by
  decide

/-- **C7, amended.**  On the Azure backend (the only hierarchical
provider) the order is reversed relative to the claim: for every provider
behaviour and every starting state, the first call of an ensure-present
cycle is the parent (storage-account) probe that begins `ensureParent`,
and the container existence probe can only come later. -/
theorem C7_parent_ensured_before_probe :
    ∀ {σ : Type} (p : Azure.Provider σ) (rg region acct c : String) (s : σ),
      (Azure.create_container p rg region acct c s).trace.head? =
        some Azure.Call.acctGetProperties := by
  intro σ p rg region acct c s
  obtain ⟨tl, htl⟩ := Azure.create_storage_account_trace_head p rg acct region s
  rcases hc : Azure.create_storage_account p rg acct region s with ⟨b, tr, s1⟩
  rw [hc] at htl
  simp only at htl
  simp only [Azure.create_container, hc]
  cases b
  · simp [htl]
  · rcases he : Azure.container_exists p rg acct c s1 with ⟨b2, tr2, s2⟩
    simp only [he]
    cases b2
    · rcases hk : p.listKeys rg acct s2 with ⟨kr, s3⟩
      simp only [hk]
      rcases kr with e | k
      · simp [htl]
      · rcases hcc : p.ctrCreate acct c s3 with ⟨cr, s4⟩
        simp only [hcc]
        rcases cr with e2 | _
        · rcases e2 <;> simp [htl]
        · simp [htl]
    · simp [htl]

/-- **C8.**  The describe operation on both flat backends: when the probe
observes Absent the outcome is a not-found failure with the probe as the
only provider call and no detail; when Present, the metadata call is made
and what the provider reports is returned as the detail (on GCP the single
`get_bucket` call is at once probe and describe, and its metadata is
returned unchanged; on AWS `get_bucket_location` / `list_buckets` are
called and their results — with the documented `None -> us-east-1`
defaulting — form the detail). -/
theorem C8_describe_behavior :
    (∀ {σ : Type} (p : AWS.Provider σ) (b : String) (s s1 : σ),
      p.headBucket b s = (.error .e404, s1) →
      AWS.check_bucket p b s = ⟨.failedNotFound, none, [.headBucket], s1⟩) ∧
    (∀ {σ : Type} (p : AWS.Provider σ) (b : String) (s s1 s2 s3 : σ)
        (loc : Option String) (bs : List (String × String)),
      p.headBucket b s = (.ok (), s1) →
      p.getBucketLocation b s1 = (.ok loc, s2) →
      p.listBuckets s2 = (.ok bs, s3) →
      AWS.check_bucket p b s =
        ⟨.checkedOk,
         some ⟨loc.getD "us-east-1", (bs.find? (fun x => x.1 = b)).map (fun x => x.2)⟩,
         [.headBucket, .getBucketLocation, .listBucketsCall], s3⟩) ∧
    (∀ {σ : Type} (p : GCP.Provider σ) (b pid : String) (s s1 : σ),
      p.getBucket b s = (.error .notFound, s1) →
      GCP.check_bucket p b pid s = ⟨.failedNotFound, none, [.getBucket], s1⟩) ∧
    (∀ {σ : Type} (p : GCP.Provider σ) (b pid : String) (s s1 : σ)
        (m : GCP.BucketMeta),
      p.getBucket b s = (.ok m, s1) →
      GCP.check_bucket p b pid s = ⟨.checkedOk, some m, [.getBucket], s1⟩) := by
  refine ⟨?_, ?_, ?_, ?_⟩
  · intro σ p b s s1 h
    simp only [AWS.check_bucket, AWS.bucket_exists, h]
  · intro σ p b s s1 s2 s3 loc bs h1 h2 h3
    simp only [AWS.check_bucket, AWS.bucket_exists, h1, h2, h3]
  · intro σ p b pid s s1 h
    simp only [GCP.check_bucket, h]
  · intro σ p b pid s s1 m h
    simp only [GCP.check_bucket, h]

/-- **C8, witness.**  Describe against fault-free backends: a missing
resource gives a not-found failure after the sole probe call; a present
resource gives success with the provider-reported metadata. -/
theorem C8_witness :
    AWS.check_bucket AWS.honest "missing" [] =
        ⟨.failedNotFound, none, [.headBucket], []⟩ ∧
      AWS.check_bucket AWS.honest "my-data" ["my-data"] =
        ⟨.checkedOk, some ⟨"us-east-1", some "2024-01-01"⟩,
         [.headBucket, .getBucketLocation, .listBucketsCall], ["my-data"]⟩ ∧
      GCP.check_bucket GCP.honest "missing" "proj" [] =
        ⟨.failedNotFound, none, [.getBucket], []⟩ ∧
      GCP.check_bucket GCP.honest "my-data" "proj" ["my-data"] =
        ⟨.checkedOk, some GCP.defaultMeta, [.getBucket], ["my-data"]⟩ :=
  ⟨C8_describe_behavior.1 AWS.honest "missing" [] [] rfl,
   C8_describe_behavior.2.1 AWS.honest "my-data" ["my-data"] ["my-data"]
     ["my-data"] ["my-data"] none [("my-data", "2024-01-01")] rfl rfl rfl,
   C8_describe_behavior.2.2.1 GCP.honest "missing" "proj" [] [] rfl,
   C8_describe_behavior.2.2.2 GCP.honest "my-data" "proj" ["my-data"]
     ["my-data"] GCP.defaultMeta rfl⟩

/-- **C9.**  On both backends with sub-resource cleanup, a failure while
emptying the container's contents never blocks the primary delete: the
delete call is still issued, and the cycle's outcome is the function of
that delete call's response alone (success on `ok`, plus GCP's absorption
of `NotFound`), independent of the cleanup failure. -/
theorem C9_cleanup_failure_nonfatal :
    (∀ {σ : Type} (p : AWS.Provider σ) (b : String) (s s1 s2 s3 : σ)
        (e : AWS.S3Error) (dr : Except AWS.S3Error Unit),
      p.headBucket b s = (.ok (), s1) →
      p.emptyObjects b s1 = (.error e, s2) →
      p.deleteBucket b s2 = (dr, s3) →
      AWS.delete_bucket p b s =
        ⟨(match dr with | .ok _ => .deleted | .error _ => .failedOther),
         [.headBucket, .emptyBucketObjects, .deleteBucketCall], s3⟩) ∧
    (∀ {σ : Type} (p : GCP.Provider σ) (b pid : String) (s s1 s2 s3 : σ)
        (e : GCP.GcsError) (m : GCP.BucketMeta) (dr : Except GCP.GcsError Unit),
      p.getBucket b s = (.ok m, s1) →
      p.listBlobs b s1 = (.error e, s2) →
      p.deleteBucket b s2 = (dr, s3) →
      GCP.delete_bucket p b pid s =
        ⟨(match dr with
          | .ok _ => .deleted
          | .error .notFound => .deleted
          | .error _ => .failedOther),
         [.getBucket, .listBlobsCall, .deleteBucketCall], s3⟩) := by
  constructor
  · intro σ p b s s1 s2 s3 e dr h1 h2 h3
    rcases dr with e2 | u <;>
      simp only [AWS.delete_bucket, AWS.bucket_exists, h1, h2, h3]
  · intro σ p b pid s s1 s2 s3 e m dr h1 h2 h3
    rcases dr with e2 | u
    · rcases e2 <;> simp [GCP.delete_bucket, h1, h2, h3]
    · simp [GCP.delete_bucket, h1, h2, h3]

/-- **C9, witness.**  Cleanup fails but the delete succeeds: the outcome
is `deleted` on both backends. -/
theorem C9_witness :
    AWS.delete_bucket AWS.cleanupFails "my-data" () =
        ⟨.deleted, [.headBucket, .emptyBucketObjects, .deleteBucketCall], ()⟩ ∧
      GCP.delete_bucket GCP.cleanupFails "my-data" "proj" () =
        ⟨.deleted, [.getBucket, .listBlobsCall, .deleteBucketCall], ()⟩ :=
  ⟨C9_cleanup_failure_nonfatal.1 AWS.cleanupFails "my-data" () () () ()
     .otherErr (.ok ()) rfl rfl rfl,
   C9_cleanup_failure_nonfatal.2 GCP.cleanupFails "my-data" "proj" () () () ()
     .otherErr GCP.defaultMeta (.ok ()) rfl rfl rfl⟩
